import Mathlib

/-!
Shallow embedding of the ink! contract in src/lib.rs (module contract_publish).

Accounts (ink `AccountId`) are modelled as `Nat`; balances (ink `Balance`,
u128) as `Nat` — the contract performs no arithmetic on balances other than
comparison and passing `self.price` to `env().transfer`, so no overflow is
possible and no modular reduction is needed.

An ink `Mapping` is modelled as a function `Nat → Option V` with the
operations the source uses: `contains`, `get`, `insert` (overwrites) and
`remove`.

The host environment is made explicit: each message takes the values the
source reads from `self.env()` — the caller (`env().caller()`), the attached
value (`env().transferred_value()`) and, for `set_new_allowed_buyer`, a
boolean telling whether the native transfer `env().transfer(owner, price)`
is accepted by the environment. Each state-mutating message returns the new
contract state, the list of successful native transfers it performed
(recipient, amount) and its `ClientResult`.
-/

namespace ContractPublishModel

inductive Error where
  | CallerIsOwner
  | CallerIsNotOwner
  | NotOnPossibleBuyersList
  | NotOnBuyersList
  | InsufficientBalance
  | AlreadyOnList
  | TransferError
deriving DecidableEq, Repr

structure SongInfo where
  song_name : String
  song_duration : String
  artist_name : String
  album : String
  watermark_image_ipfs : String
deriving DecidableEq, Repr

structure ClientSongInfoResponse where
  song_info : SongInfo
  price : Nat
deriving DecidableEq, Repr

structure DistributedStorageInfo where
  location : String
  key : String
deriving DecidableEq, Repr

structure BuyerPublicKey where
  key : String
deriving DecidableEq, Repr

abbrev ClientResult (T : Type) := Except Error T

/-- Model of `ink::storage::Mapping` with `AccountId` keys. -/
def Mapping (V : Type) : Type := Nat → Option V

def Mapping.empty {V : Type} : Mapping V := fun _ => none

def Mapping.get {V : Type} (m : Mapping V) (k : Nat) : Option V := m k

def Mapping.contains {V : Type} (m : Mapping V) (k : Nat) : Bool := (m k).isSome

def Mapping.insert {V : Type} (m : Mapping V) (k : Nat) (v : V) : Mapping V :=
  fun q => if q = k then some v else m q

def Mapping.remove {V : Type} (m : Mapping V) (k : Nat) : Mapping V :=
  fun q => if q = k then none else m q

/-- The `#[ink(storage)]` struct `ContractPublish`. -/
structure ContractPublish where
  song_info : SongInfo
  owner : Nat
  price : Nat
  buyers : Mapping DistributedStorageInfo
  possible_buyers_keys : Mapping BuyerPublicKey

/-- Outcome of one state-mutating message: new state, successful native
transfers performed as (recipient, amount) pairs, and the returned result. -/
structure MsgOutcome (T : Type) where
  state : ContractPublish
  transfers : List (Nat × Nat)
  result : ClientResult T

/-- Constructor `publish_song`; `caller` is `env().caller()`, recorded as
the owner. The emitted `SongPublish` event is not modelled. -/
def publish_song (caller : Nat) (song_name : String) (song_price : Nat)
    (author_name song_duration album_name image_address : String) :
    ContractPublish :=
  { song_info :=
      { album := album_name
        artist_name := author_name
        song_duration := song_duration
        song_name := song_name
        watermark_image_ipfs := image_address }
    owner := caller
    price := song_price
    buyers := Mapping.empty
    possible_buyers_keys := Mapping.empty }

/-- Helper `is_caller_owner`. -/
def is_caller_owner (s : ContractPublish) (caller : Nat) : Bool :=
  caller == s.owner

/-- Getter message `get_song_info`: a pure read (takes `&self`). -/
def get_song_info (s : ContractPublish) : ClientSongInfoResponse :=
  { song_info := s.song_info, price := s.price }

/-- Payable message `post_buy_intention`: checks, in source order, that the
caller is not the owner, that the caller is not already on
`possible_buyers_keys`, and that the attached value is not below the price;
then inserts the caller's public key. It performs no native transfer. -/
def post_buy_intention (s : ContractPublish) (caller : Nat)
    (transferred_value : Nat) (buyer_public_key : String) :
    MsgOutcome String :=
  if is_caller_owner s caller then
    { state := s, transfers := [], result := .error .CallerIsOwner }
  else if s.possible_buyers_keys.contains caller then
    { state := s, transfers := [], result := .error .AlreadyOnList }
  else if transferred_value < s.price then
    { state := s, transfers := [], result := .error .InsufficientBalance }
  else
    { state :=
        { s with
          possible_buyers_keys :=
            s.possible_buyers_keys.insert caller { key := buyer_public_key } }
      transfers := []
      result := .ok "Buy intention posted" }

/-- Getter message `get_buyer_public_key` (owner-only read). -/
def get_buyer_public_key (s : ContractPublish) (caller : Nat)
    (buyer_key : Nat) : ClientResult String :=
  if !is_caller_owner s caller then .error .CallerIsNotOwner
  else
    match s.possible_buyers_keys.get buyer_key with
    | none => .error .NotOnPossibleBuyersList
    | some key => .ok key.key

/-- Message `set_new_allowed_buyer` (the spec's `confirm_buyer`). The source
never reads `env().caller()` in this message — there is no owner check — so
the `caller` argument is unused. `transfer_ok` is whether
`env().transfer(self.owner, self.price)` is accepted; when it is, the
transfer of exactly `self.price` to the owner is recorded in `transfers`. -/
def set_new_allowed_buyer (s : ContractPublish) (_caller : Nat)
    (transfer_ok : Bool) (encripted_symmetric_key ipfs_song_address : String)
    (buyer : Nat) : MsgOutcome String :=
  if !s.possible_buyers_keys.contains buyer then
    { state := s, transfers := [], result := .error .NotOnPossibleBuyersList }
  else if !transfer_ok then
    { state := s, transfers := [], result := .error .TransferError }
  else
    { state :=
        { s with
          possible_buyers_keys := s.possible_buyers_keys.remove buyer
          buyers :=
            s.buyers.insert buyer
              { location := ipfs_song_address, key := encripted_symmetric_key } }
      transfers := [(s.owner, s.price)]
      result := .ok "Client added to buyers list" }

/-- Getter message `get_address_and_key_buyer` (the spec's
`retrieve_delivery`): caller-scoped read of the `buyers` map. -/
def get_address_and_key_buyer (s : ContractPublish) (caller : Nat) :
    ClientResult DistributedStorageInfo :=
  if !s.buyers.contains caller then .error .NotOnBuyersList
  else
    match s.buyers.get caller with
    | none => .error .NotOnBuyersList
    | some data => .ok data

/-! Traces of state-mutating public calls, for reachability statements. -/

/-- One state-mutating public call with the environment values it reads. -/
inductive Step where
  | post (caller : Nat) (value : Nat) (key : String)
  | confirm (caller : Nat) (transfer_ok : Bool) (ekey loc : String) (buyer : Nat)
deriving Repr

def execStep (s : ContractPublish) : Step → ContractPublish
  | .post c v k => (post_buy_intention s c v k).state
  | .confirm c ok ek loc b => (set_new_allowed_buyer s c ok ek loc b).state

def execTrace (s : ContractPublish) : List Step → ContractPublish
  | [] => s
  | st :: rest => execTrace (execStep s st) rest

/-- A state reachable from a freshly published contract by public calls. -/
def Reachable (s : ContractPublish) : Prop :=
  ∃ caller name price author dur album img tr,
    s = execTrace (publish_song caller name price author dur album img) tr

/-- No account is simultaneously on the intent map and the buyers map. -/
def MapsDisjoint (s : ContractPublish) : Prop :=
  ∀ a, s.possible_buyers_keys.contains a = true → s.buyers.contains a = false

/-- Trace condition: no call posts a buy intention for a caller that already
holds a Confirmed record at that point. -/
def goodTrace : ContractPublish → List Step → Bool
  | _, [] => true
  | s, st :: rest =>
    (match st with
     | .post c _ _ => !s.buyers.contains c
     | .confirm _ _ _ _ _ => true) && goodTrace (execStep s st) rest

/-! Basic lemmas about the `Mapping` model. -/

@[simp]
theorem Mapping.contains_empty {V : Type} (k : Nat) :
    (Mapping.empty : Mapping V).contains k = false := rfl

@[simp]
theorem Mapping.contains_insert_self {V : Type} (m : Mapping V) (k : Nat) (v : V) :
    (m.insert k v).contains k = true := by
  simp [Mapping.insert, Mapping.contains]

theorem Mapping.contains_insert_ne {V : Type} (m : Mapping V) {k q : Nat} (v : V)
    (h : q ≠ k) : (m.insert k v).contains q = m.contains q := by
  simp [Mapping.insert, Mapping.contains, h]

@[simp]
theorem Mapping.contains_remove_self {V : Type} (m : Mapping V) (k : Nat) :
    (m.remove k).contains k = false := by
  simp [Mapping.remove, Mapping.contains]

theorem Mapping.contains_remove_ne {V : Type} (m : Mapping V) {k q : Nat}
    (h : q ≠ k) : (m.remove k).contains q = m.contains q := by
  simp [Mapping.remove, Mapping.contains, h]

@[simp]
theorem Mapping.get_insert_self {V : Type} (m : Mapping V) (k : Nat) (v : V) :
    (m.insert k v).get k = some v := by
  simp [Mapping.insert, Mapping.get]

/-! Sample states used by concrete witnesses and counterexamples: account 0
publishes a song priced 100; account 1 posts a buy intention attaching 100;
the intention is then confirmed with key "ek" and location "loc". -/

def sampleContract : ContractPublish :=
  publish_song 0 "song" 100 "artist" "3:00" "album" "img"

def sampleIntent : ContractPublish :=
  (post_buy_intention sampleContract 1 100 "pk").state

def sampleConfirmed : ContractPublish :=
  (set_new_allowed_buyer sampleIntent 0 true "ek" "loc" 1).state

/-! Claim theorems. -/

/-- Claim C8: for every contract state and every attached value, a call to
post_buy_intention by the listing owner fails with the typed, matchable
error CallerIsOwner, performs no transfer and leaves the state unchanged. -/
theorem c8_owner_post_fails (s : ContractPublish) (value : Nat) (k : String) :
    post_buy_intention s s.owner value k =
      { state := s, transfers := [], result := .error .CallerIsOwner } := by
  simp [post_buy_intention, is_caller_owner]

/-- Claim C9: every state-mutating public message (post_buy_intention and
set_new_allowed_buyer) leaves song_info, owner and price unchanged; the
remaining messages take the state immutably and are modelled as pure reads,
so no message mutates them and no price-setter exists. -/
theorem c9_metadata_frame (s : ContractPublish) (c v : Nat) (k : String)
    (c2 : Nat) (ok : Bool) (ek loc : String) (b : Nat) :
    ((post_buy_intention s c v k).state.song_info = s.song_info ∧
     (post_buy_intention s c v k).state.owner = s.owner ∧
     (post_buy_intention s c v k).state.price = s.price) ∧
    ((set_new_allowed_buyer s c2 ok ek loc b).state.song_info = s.song_info ∧
     (set_new_allowed_buyer s c2 ok ek loc b).state.owner = s.owner ∧
     (set_new_allowed_buyer s c2 ok ek loc b).state.price = s.price) := by
  refine ⟨⟨?_, ?_, ?_⟩, ?_, ?_, ?_⟩ <;>
    (simp only [post_buy_intention, set_new_allowed_buyer]; repeat' split) <;> rfl

/-- Claim C10: a non-owner caller with no entry in the intent map succeeds
whenever the attached value is at least the price (the source check is
strict less-than, so exactly the price succeeds and there is no upper
bound); the only state change is inserting the caller's public key into the
intent map and no native transfer is performed. -/
theorem c10_post_success (s : ContractPublish) (caller value : Nat)
    (k : String) (hc : caller ≠ s.owner)
    (hn : s.possible_buyers_keys.contains caller = false)
    (hv : s.price ≤ value) :
    post_buy_intention s caller value k =
      { state :=
          { s with possible_buyers_keys :=
              s.possible_buyers_keys.insert caller { key := k } }
        transfers := []
        result := .ok "Buy intention posted" } := by
  simp [post_buy_intention, is_caller_owner, hc, hn, Nat.not_lt.mpr hv]

theorem c10_post_success_witness :
    (1 : Nat) ≠ sampleContract.owner ∧
    sampleContract.possible_buyers_keys.contains 1 = false ∧
    sampleContract.price ≤ 100 ∧
    (post_buy_intention sampleContract 1 100 "pk").result =
      .ok "Buy intention posted" :=
  ⟨by decide, rfl, by decide,
    by rw [c10_post_success sampleContract 1 100 "pk" (by decide) rfl (by decide)]⟩

/-- Claim C1 (code evaluation at the failing input): set_new_allowed_buyer
contains no caller check at all, so a caller (account 2) distinct from the
owner (account 0) confirms a pending buyer successfully instead of failing
with CallerIsNotOwner. -/
theorem c1_missing_owner_check :
    (2 : Nat) ≠ sampleIntent.owner ∧
    (set_new_allowed_buyer sampleIntent 2 true "ek" "loc" 1).result =
      Except.ok "Client added to buyers list" ∧
    (set_new_allowed_buyer sampleIntent 2 true "ek" "loc" 1).result ≠
      Except.error Error.CallerIsNotOwner ∧
    (set_new_allowed_buyer sampleIntent 2 true "ek" "loc" 1).state.buyers.contains 1
      = true := by
  refine ⟨by decide, rfl, ?_, rfl⟩
  have h : (set_new_allowed_buyer sampleIntent 2 true "ek" "loc" 1).result =
      Except.ok "Client added to buyers list" := rfl
  rw [h]
  exact fun hcontra => Except.noConfusion hcontra

/-- Claim C2 (counterexample): account 1 is Confirmed (it is on the buyers
map and off the intent map), yet its next post_buy_intention returns Ok
rather than AlreadyOnList. -/
theorem c2_counterexample :
    sampleConfirmed.buyers.contains 1 = true ∧
    sampleConfirmed.possible_buyers_keys.contains 1 = false ∧
    (post_buy_intention sampleConfirmed 1 100 "pk2").result =
      Except.ok "Buy intention posted" :=
  ⟨rfl, rfl, rfl⟩

/-- Claim C2 (amended): a non-owner account that currently has an Intent
record receives AlreadyOnList from post_buy_intention, with no transfer and
the state unchanged; an account holding only a Confirmed record is not
rejected and may post a new intent. -/
theorem c2_intent_blocks_repost (s : ContractPublish) (caller value : Nat)
    (k : String) (hc : caller ≠ s.owner)
    (hi : s.possible_buyers_keys.contains caller = true) :
    post_buy_intention s caller value k =
      { state := s, transfers := [], result := .error .AlreadyOnList } := by
  simp [post_buy_intention, is_caller_owner, hc, hi]

theorem c2_intent_blocks_repost_witness :
    (1 : Nat) ≠ sampleIntent.owner ∧
    sampleIntent.possible_buyers_keys.contains 1 = true ∧
    (post_buy_intention sampleIntent 1 100 "q").result =
      Except.error Error.AlreadyOnList :=
  ⟨by decide, rfl,
    by rw [c2_intent_blocks_repost sampleIntent 1 100 "q" (by decide) rfl]⟩

/-- Claim C4 (counterexample): account 1 posts an intent attaching 150 on a
listing priced 100; the subsequent confirmation transfers 100 (the price) to
the owner, not the 150 that was escrowed at intent time. -/
theorem c4_counterexample :
    (set_new_allowed_buyer
        (post_buy_intention sampleContract 1 150 "pk").state
        0 true "ek" "loc" 1).result = Except.ok "Client added to buyers list" ∧
    (set_new_allowed_buyer
        (post_buy_intention sampleContract 1 150 "pk").state
        0 true "ek" "loc" 1).transfers = [(0, 100)] ∧
    (100 : Nat) ≠ 150 :=
  ⟨rfl, rfl, by decide⟩

/-- Claim C4 (amended): on a successful confirmation the single native
transfer pays the owner exactly the listing price, whatever value the buyer
attached at intent time (the attached value is not recorded anywhere). -/
theorem c4_confirm_transfers_price (s : ContractPublish) (caller : Nat)
    (ek loc : String) (b : Nat)
    (hb : s.possible_buyers_keys.contains b = true) :
    (set_new_allowed_buyer s caller true ek loc b).transfers =
      [(s.owner, s.price)] ∧
    (set_new_allowed_buyer s caller true ek loc b).result =
      Except.ok "Client added to buyers list" := by
  simp [set_new_allowed_buyer, hb]

theorem c4_confirm_transfers_price_witness :
    sampleIntent.possible_buyers_keys.contains 1 = true ∧
    (set_new_allowed_buyer sampleIntent 0 true "ek" "loc" 1).transfers =
      [(sampleIntent.owner, sampleIntent.price)] :=
  ⟨rfl, (c4_confirm_transfers_price sampleIntent 0 "ek" "loc" 1 rfl).1⟩

/-- Claim C5 (counterexample): with price 100 and the spec's commission rate
10, the commission is 100 / 10 = 10, so an attached value of 100 is below
price + commission; yet post_buy_intention succeeds (it checks only
value < price) and creates the Intent record, instead of failing with
InsufficientBalance. -/
theorem c5_counterexample :
    100 < 100 + 100 / 10 ∧
    (post_buy_intention sampleContract 1 100 "pk").result ≠
      Except.error Error.InsufficientBalance ∧
    (post_buy_intention sampleContract 1 100 "pk").state.possible_buyers_keys.contains 1
      = true := by
  refine ⟨by norm_num, ?_, rfl⟩
  have h : (post_buy_intention sampleContract 1 100 "pk").result =
      Except.ok "Buy intention posted" := rfl
  rw [h]
  exact fun hcontra => Except.noConfusion hcontra

/-- Claim C5 (amended): for a non-owner caller with no existing record,
post_buy_intention fails with InsufficientBalance exactly when the attached
value is below the listing price (no commission is added), and on that
failure the state is unchanged, so no Intent record is created. -/
theorem c5_insufficient_iff_below_price (s : ContractPublish)
    (caller value : Nat) (k : String) (hc : caller ≠ s.owner)
    (hn : s.possible_buyers_keys.contains caller = false) :
    ((post_buy_intention s caller value k).result =
        Except.error Error.InsufficientBalance ↔ value < s.price) ∧
    (value < s.price →
      post_buy_intention s caller value k =
        { state := s, transfers := [], result := .error .InsufficientBalance }) := by
  by_cases hv : value < s.price <;>
    simp [post_buy_intention, is_caller_owner, hc, hn, hv]

theorem c5_insufficient_iff_below_price_witness :
    (1 : Nat) ≠ sampleContract.owner ∧
    sampleContract.possible_buyers_keys.contains 1 = false ∧
    ((post_buy_intention sampleContract 1 50 "pk").result =
        Except.error Error.InsufficientBalance ↔ 50 < sampleContract.price) :=
  ⟨by decide, rfl,
    (c5_insufficient_iff_below_price sampleContract 1 50 "pk" (by decide) rfl).1⟩

/-- Claim C6: set_new_allowed_buyer on an account with no current Intent
record returns NotOnPossibleBuyersList with no transfer and the state
unchanged; when the Intent exists but the native transfer is rejected it
returns TransferError, again with no successful transfer and the state
unchanged; and after a successful confirmation an immediately repeated
confirmation for the same account fails with NotOnPossibleBuyersList and
settles nothing, so it cannot settle twice. -/
theorem c6_confirm_failure_paths :
    (∀ (s : ContractPublish) (caller : Nat) (ok : Bool) (ek loc : String)
        (b : Nat), s.possible_buyers_keys.contains b = false →
        set_new_allowed_buyer s caller ok ek loc b =
          { state := s, transfers := [],
            result := .error .NotOnPossibleBuyersList }) ∧
    (∀ (s : ContractPublish) (caller : Nat) (ek loc : String) (b : Nat),
        s.possible_buyers_keys.contains b = true →
        set_new_allowed_buyer s caller false ek loc b =
          { state := s, transfers := [], result := .error .TransferError }) ∧
    (∀ (s : ContractPublish) (c1 : Nat) (ok : Bool) (ek loc : String)
        (b c2 : Nat) (ok2 : Bool) (ek2 loc2 : String),
        (set_new_allowed_buyer s c1 ok ek loc b).result =
          Except.ok "Client added to buyers list" →
        set_new_allowed_buyer (set_new_allowed_buyer s c1 ok ek loc b).state
            c2 ok2 ek2 loc2 b =
          { state := (set_new_allowed_buyer s c1 ok ek loc b).state,
            transfers := [],
            result := .error .NotOnPossibleBuyersList }) := by
  refine ⟨?_, ?_, ?_⟩
  · intro s caller ok ek loc b hb
    simp [set_new_allowed_buyer, hb]
  · intro s caller ek loc b hb
    simp [set_new_allowed_buyer, hb]
  · intro s c1 ok ek loc b c2 ok2 ek2 loc2 hok
    cases hb : s.possible_buyers_keys.contains b with
    | false => simp [set_new_allowed_buyer, hb] at hok
    | true =>
      cases ok with
      | false => simp [set_new_allowed_buyer, hb] at hok
      | true =>
        have hX : (set_new_allowed_buyer s c1 true ek loc
            b).state.possible_buyers_keys.contains b = false := by
          simp [set_new_allowed_buyer, hb]
        revert hX
        generalize (set_new_allowed_buyer s c1 true ek loc b).state = X
        intro hX
        simp [set_new_allowed_buyer, hX]

theorem c6_confirm_failure_paths_witness :
    (sampleContract.possible_buyers_keys.contains 5 = false ∧
      set_new_allowed_buyer sampleContract 0 true "ek" "loc" 5 =
        { state := sampleContract, transfers := [],
          result := Except.error Error.NotOnPossibleBuyersList }) ∧
    (sampleIntent.possible_buyers_keys.contains 1 = true ∧
      set_new_allowed_buyer sampleIntent 0 false "ek" "loc" 1 =
        { state := sampleIntent, transfers := [],
          result := Except.error Error.TransferError }) ∧
    ((set_new_allowed_buyer sampleIntent 0 true "ek" "loc" 1).result =
        Except.ok "Client added to buyers list" ∧
      set_new_allowed_buyer
          (set_new_allowed_buyer sampleIntent 0 true "ek" "loc" 1).state
          0 true "e2" "l2" 1 =
        { state := (set_new_allowed_buyer sampleIntent 0 true "ek" "loc" 1).state,
          transfers := [],
          result := Except.error Error.NotOnPossibleBuyersList }) :=
  ⟨⟨rfl, c6_confirm_failure_paths.1 sampleContract 0 true "ek" "loc" 5 rfl⟩,
   ⟨rfl, c6_confirm_failure_paths.2.1 sampleIntent 0 "ek" "loc" 1 rfl⟩,
   ⟨rfl, c6_confirm_failure_paths.2.2 sampleIntent 0 true "ek" "loc" 1 0 true
      "e2" "l2" rfl⟩⟩

/-- Claim C7: after a successful confirmation of buyer b with a given
location and key, get_address_and_key_buyer called by b returns exactly that
location and key; and for any account with no Confirmed record it returns
NotOnBuyersList. -/
theorem c7_retrieve_delivery :
    (∀ (s : ContractPublish) (caller : Nat) (ek loc : String) (b : Nat),
        s.possible_buyers_keys.contains b = true →
        get_address_and_key_buyer
            (set_new_allowed_buyer s caller true ek loc b).state b =
          Except.ok { location := loc, key := ek }) ∧
    (∀ (s : ContractPublish) (a : Nat), s.buyers.contains a = false →
        get_address_and_key_buyer s a = Except.error Error.NotOnBuyersList) := by
  constructor
  · intro s caller ek loc b hb
    simp [set_new_allowed_buyer, hb, get_address_and_key_buyer]
  · intro s a ha
    simp [get_address_and_key_buyer, ha]

theorem c7_retrieve_delivery_witness :
    (sampleIntent.possible_buyers_keys.contains 1 = true ∧
      get_address_and_key_buyer
          (set_new_allowed_buyer sampleIntent 0 true "ek" "loc" 1).state 1 =
        Except.ok { location := "loc", key := "ek" }) ∧
    (sampleContract.buyers.contains 2 = false ∧
      get_address_and_key_buyer sampleContract 2 =
        Except.error Error.NotOnBuyersList) :=
  ⟨⟨rfl, c7_retrieve_delivery.1 sampleIntent 0 "ek" "loc" 1 rfl⟩,
   ⟨rfl, c7_retrieve_delivery.2 sampleContract 2 rfl⟩⟩

/-! Helper lemmas for the two-phase state-machine invariant (claim C3). -/

theorem post_state_eq_or (s : ContractPublish) (c v : Nat) (k : String) :
    (post_buy_intention s c v k).state = s ∨
    (post_buy_intention s c v k).state =
      { s with possible_buyers_keys :=
          s.possible_buyers_keys.insert c { key := k } } := by
  simp only [post_buy_intention]
  split
  · left; rfl
  split
  · left; rfl
  split
  · left; rfl
  right; rfl

theorem confirm_state_eq_or (s : ContractPublish) (c : Nat) (ok : Bool)
    (ek loc : String) (b : Nat) :
    (set_new_allowed_buyer s c ok ek loc b).state = s ∨
    (set_new_allowed_buyer s c ok ek loc b).state =
      { s with
        possible_buyers_keys := s.possible_buyers_keys.remove b
        buyers := s.buyers.insert b { location := loc, key := ek } } := by
  simp only [set_new_allowed_buyer]
  split
  · left; rfl
  split
  · left; rfl
  right; rfl

theorem post_preserves_disjoint (s : ContractPublish) (c v : Nat)
    (k : String) (hd : MapsDisjoint s) (hc : s.buyers.contains c = false) :
    MapsDisjoint (post_buy_intention s c v k).state := by
  rcases post_state_eq_or s c v k with h | h <;> rw [h]
  · exact hd
  · intro a ha
    dsimp only at ha ⊢
    by_cases hac : a = c
    · subst hac; exact hc
    · rw [Mapping.contains_insert_ne _ _ hac] at ha
      exact hd a ha

theorem confirm_preserves_disjoint (s : ContractPublish) (c : Nat)
    (ok : Bool) (ek loc : String) (b : Nat) (hd : MapsDisjoint s) :
    MapsDisjoint (set_new_allowed_buyer s c ok ek loc b).state := by
  rcases confirm_state_eq_or s c ok ek loc b with h | h <;> rw [h]
  · exact hd
  · intro a ha
    dsimp only at ha ⊢
    by_cases hab : a = b
    · subst hab
      rw [Mapping.contains_remove_self] at ha
      exact Bool.noConfusion ha
    · rw [Mapping.contains_remove_ne _ hab] at ha
      rw [Mapping.contains_insert_ne _ _ hab]
      exact hd a ha

theorem goodTrace_disjoint (tr : List Step) :
    ∀ s : ContractPublish, MapsDisjoint s → goodTrace s tr = true →
      MapsDisjoint (execTrace s tr) := by
  induction tr with
  | nil => intro s hd _; exact hd
  | cons st rest ih =>
    intro s hd hg
    rw [execTrace]
    cases st with
    | post c v k =>
      rw [goodTrace, Bool.and_eq_true] at hg
      refine ih _ ?_ hg.2
      rw [execStep]
      refine post_preserves_disjoint s c v k hd ?_
      simpa using hg.1
    | confirm c ok ek loc b =>
      rw [goodTrace, Bool.and_eq_true] at hg
      refine ih _ ?_ hg.2
      rw [execStep]
      exact confirm_preserves_disjoint s c ok ek loc b hd

/-- Trace reaching a state where account 1 is on both maps: post intent,
get confirmed, then post a second intent while still Confirmed. -/
def overlapTrace : List Step :=
  [Step.post 1 100 "pk", Step.confirm 0 true "ek" "loc" 1,
   Step.post 1 100 "pk2"]

/-- Trace that respects the no-repost-after-confirmation condition. -/
def disjointTrace : List Step :=
  [Step.post 1 100 "pk", Step.confirm 0 true "ek" "loc" 1]

/-- Claim C3 (counterexample): a state reachable from a freshly published
contract in which account 1 is simultaneously on the intent map and on the
buyers map — a confirmed buyer posted a second intent, so the maps are not
disjoint and Confirmed is not terminal. -/
theorem c3_counterexample :
    Reachable (execTrace sampleContract overlapTrace) ∧
    (execTrace sampleContract overlapTrace).possible_buyers_keys.contains 1
      = true ∧
    (execTrace sampleContract overlapTrace).buyers.contains 1 = true :=
  ⟨⟨0, "song", 100, "artist", "3:00", "album", "img", overlapTrace, rfl⟩,
   rfl, rfl⟩

/-- Claim C3 (amended): along any sequence of public calls in which no
account posts a buy intention while already holding a Confirmed record, no
account is ever simultaneously on the intent map and the buyers map; a step
moves an account Absent → Intent (post) or Intent → Confirmed (confirm),
but Confirmed is not terminal — a confirmed account may post a new intent,
after which it is on both maps. -/
theorem c3_disjoint_along_good_traces (caller : Nat) (name : String)
    (price : Nat) (author dur album img : String) (tr : List Step)
    (h : goodTrace (publish_song caller name price author dur album img) tr
      = true) :
    MapsDisjoint
      (execTrace (publish_song caller name price author dur album img) tr) := by
  refine goodTrace_disjoint tr _ ?_ h
  intro a ha
  simp [publish_song] at ha

theorem c3_disjoint_along_good_traces_witness :
    goodTrace (publish_song 0 "song" 100 "artist" "3:00" "album" "img")
      disjointTrace = true ∧
    MapsDisjoint
      (execTrace (publish_song 0 "song" 100 "artist" "3:00" "album" "img")
        disjointTrace) :=
  ⟨rfl,
    c3_disjoint_along_good_traces 0 "song" 100 "artist" "3:00" "album" "img"
      disjointTrace rfl⟩

end ContractPublishModel
